import Mathlib

/-!
Shallow embedding of `src/src/lib.rs` (the `run` function of the modo
crate): a sampling loop that publishes idle time, activity status and a
gated last-active timestamp over MQTT, and an event loop that supervises
the MQTT connection.

Machine integers: `idle_sec` and the thresholds are Rust `u64` values.
Only comparisons and a `u64::MAX - 1` constant occur, never wrapping
arithmetic, so they are modelled as `Nat` with the `u64` range made
explicit where a claim depends on it.
-/

namespace Modo

/-- MQTT quality-of-service levels (rumqttc `QoS`). The source only ever
passes `AtLeastOnce`. -/
inductive QoS where
  | AtMostOnce
  | AtLeastOnce
  | ExactlyOnce
  deriving DecidableEq

/-- A chrono `DateTime<Utc>` value: whole seconds since epoch plus a
subsecond nanosecond component. -/
structure DateTime where
  secs : Int
  nanos : Nat
  deriving DecidableEq

/-- chrono `trunc_subsecs(0)`: zero the subsecond part, i.e. round the
instant down to whole seconds. -/
def DateTime.trunc_subsecs (t : DateTime) : DateTime :=
  { secs := t.secs, nanos := 0 }

/-- chrono `DateTime - Duration::from_secs(d)`: subtract `d` whole
seconds. -/
def DateTime.subSeconds (t : DateTime) (d : Nat) : DateTime :=
  { secs := t.secs - (d : Int), nanos := t.nanos }

/-- A payload handed to `mqtt_client.publish`. String payloads are kept
verbatim; the last-active timestamp is kept as the `DateTime` value that
the source renders with `to_rfc3339()` (an injective rendering, so value
equality is what matters for the claims). -/
inductive Payload where
  | str (s : String)
  | rfc3339 (t : DateTime)
  deriving DecidableEq

/-- One call to `mqtt_client.publish(topic, qos, retain, payload)`. -/
structure Publish where
  topic : String
  qos : QoS
  retain : Bool
  payload : Payload
  deriving DecidableEq

/-- Rust `str::to_ascii_lowercase` on one character: map `A`..`Z` to
`a`..`z`, leave everything else alone. -/
def asciiLowerChar (c : Char) : Char :=
  if 65 ≤ c.toNat ∧ c.toNat ≤ 90 then Char.ofNat (c.toNat + 32) else c

/-- Rust `str::to_ascii_lowercase` on a string: lower each character. -/
def to_ascii_lowercase (s : String) : String :=
  String.mk (s.data.map asciiLowerChar)

/-- `lib.rs:34-35`: the base topic `format!("{}/{}", mqtt_root_topic,
hostname)` where the hostname has been ascii-lowercased once at
startup. -/
def baseTopic (root hostname : String) : String :=
  root ++ "/" ++ to_ascii_lowercase hostname

/-- Leaf topic composition `format!("{topic}/{leaf}")`. -/
def leafTopic (base leaf : String) : String :=
  base ++ "/" ++ leaf

/-- `lib.rs:38-43`: the last-will message registered at connection
setup: topic `{root}/{hostname}/connected`, payload "false", at-least-once,
retained. -/
def lastWill (root hostname : String) : Publish :=
  { topic := root ++ "/" ++ to_ascii_lowercase hostname ++ "/connected"
    qos := QoS.AtLeastOnce
    retain := true
    payload := Payload.str "false" }

/-- Startup configuration visible to the sampling loop: the two
thresholds (u64, defaults 30 and 300) and the precomputed base topic. -/
structure Config where
  threshold_active : Nat
  threshold_idle : Nat
  topic : String

/-- `lib.rs:69-73`: the `idle_status` match.
`i if i < threshold_active => "active", i if i < threshold_idle =>
"idle", _ => "away"`. -/
def idle_status (idle_sec threshold_active threshold_idle : Nat) : String :=
  if idle_sec < threshold_active then "active"
  else if idle_sec < threshold_idle then "idle"
  else "away"

/-- `lib.rs:87-88`: `let now = Utc::now().trunc_subsecs(0); let idle_ts
= now - Duration::from_secs(idle_sec);`. -/
def lastActiveTs (now : DateTime) (idle_sec : Nat) : DateTime :=
  (now.trunc_subsecs).subSeconds idle_sec

/-- `lib.rs:49`: `let mut previous_published_idle_sec = u64::MAX - 1;`. -/
def previous_published_idle_sec_init : Nat :=
  2 ^ 64 - 2

/-- The `idle_seconds` publish issued at `lib.rs:60-65`. -/
def p_idle_seconds (cfg : Config) (idle_sec : Nat) : Publish :=
  { topic := leafTopic cfg.topic "idle_seconds"
    qos := QoS.AtLeastOnce
    retain := true
    payload := Payload.str (toString idle_sec) }

/-- The `idle_status` publish issued at `lib.rs:74-79`. -/
def p_idle_status (cfg : Config) (idle_sec : Nat) : Publish :=
  { topic := leafTopic cfg.topic "idle_status"
    qos := QoS.AtLeastOnce
    retain := true
    payload := Payload.str (idle_status idle_sec cfg.threshold_active cfg.threshold_idle) }

/-- The `last_active_timestamp` publish issued at `lib.rs:89-96`. -/
def p_last_active (cfg : Config) (now : DateTime) (idle_sec : Nat) : Publish :=
  { topic := leafTopic cfg.topic "last_active_timestamp"
    qos := QoS.AtLeastOnce
    retain := true
    payload := Payload.rfc3339 (lastActiveTs now idle_sec) }

/-- The `if let Err(e) = ... { eprintln!(...) }` pattern around each
publish call: a failed attempt contributes one log line, a successful one
contributes none. Control flow never depends on the outcome. -/
def pubLog (tag : String) : Option String → List String
  | some e => [tag ++ e]
  | none => []

/-- Observable effects of one iteration of the sampling loop: publish
attempts issued in order, stderr/stdout log lines, sleeps in
milliseconds, and the value of `previous_published_idle_sec` after the
iteration. -/
structure TickResult where
  publishes : List Publish
  logs : List String
  sleeps : List Nat
  prev : Nat
  deriving DecidableEq

/-- One iteration of the sampling loop body, `lib.rs:50-98`.
`pubErr` is the oracle for the result of each publish attempt (`none` =
`Ok`, `some e` = `Err(e)`); the source only logs failures, it never
branches on them. `sample` is the `UserIdle::get_time()` outcome; its
error is logged (the source debug-formats it) and the iteration is
skipped. The 1000 ms sleep at the top of the loop body is recorded in
every iteration. -/
def tick (cfg : Config) (pubErr : Publish → Option String) (now : DateTime)
    (prev : Nat) (sample : Except String Nat) : TickResult :=
  match sample with
  | Except.error e =>
      { publishes := [], logs := ["error=" ++ e], sleeps := [1000], prev := prev }
  | Except.ok idle_sec =>
      let ps := p_idle_seconds cfg idle_sec
      let pst := p_idle_status cfg idle_sec
      let logs12 := pubLog "mqtt_publish_idle_seconds_error=" (pubErr ps) ++
        pubLog "mqtt_publish_idle_status_error=" (pubErr pst)
      if idle_sec > prev then
        { publishes := [ps, pst], logs := logs12, sleeps := [1000], prev := prev }
      else
        let pts := p_last_active cfg now idle_sec
        { publishes := [ps, pst, pts]
          logs := logs12 ++ pubLog "mqtt_publish_last_active_timestamp_error=" (pubErr pts)
          sleeps := [1000]
          prev := idle_sec }

/-- Run the sampling loop over a finite prefix of its (infinite) input
stream: one `(now, sample)` pair per iteration, threading
`previous_published_idle_sec`. -/
def runTicks (cfg : Config) (pubErr : Publish → Option String) :
    List (DateTime × Except String Nat) → Nat → TickResult
  | [], prev => { publishes := [], logs := [], sleeps := [], prev := prev }
  | (now, s) :: rest, prev =>
      let r := tick cfg pubErr now prev s
      let t := runTicks cfg pubErr rest r.prev
      { publishes := r.publishes ++ t.publishes
        logs := r.logs ++ t.logs
        sleeps := r.sleeps ++ t.sleeps
        prev := t.prev }

/-- Detects the `last_active_timestamp` publish: it is the only publish
whose payload is an rfc3339-rendered timestamp. -/
def isTimestampPublish (p : Publish) : Bool :=
  match p.payload with
  | Payload.rfc3339 _ => true
  | Payload.str _ => false

/-- Whether an iteration published `last_active_timestamp`. -/
def publishesTimestamp (r : TickResult) : Bool :=
  r.publishes.any isTimestampPublish

/-- Incoming MQTT packets as matched at `lib.rs:105-126`. A `ConnAck`
carries the return code and the session-present flag, both used only for
logging, so the code is kept as its debug rendering. All other incoming
packet kinds are collapsed to `other` with their debug rendering. -/
inductive Packet where
  | ConnAck (code : String) (session_present : Bool)
  | PubAck
  | PingResp
  | other (desc : String)
  deriving DecidableEq

/-- Outgoing MQTT activity as matched at `lib.rs:127-133`. -/
inductive Outgoing where
  | Publish
  | PingReq
  | other (desc : String)
  deriving DecidableEq

/-- A rumqttc `Event`. -/
inductive Event where
  | Incoming (p : Packet)
  | Outgoing (o : Modo.Outgoing)
  deriving DecidableEq

/-- Observable effects of the connection event loop: publish attempts,
log lines, and sleeps in milliseconds. -/
structure LoopEffects where
  publishes : List Publish
  logs : List String
  sleeps : List Nat
  deriving DecidableEq

/-- The `connected=true` publish issued at `lib.rs:112-119`. -/
def connectedPublish (topic_main : String) : Publish :=
  { topic := leafTopic topic_main "connected"
    qos := QoS.AtLeastOnce
    retain := true
    payload := Payload.str "true" }

/-- One iteration of the event loop body, `lib.rs:102-141`: handle one
notification from `mqtt_connection.iter()` (`Except.error` is the
`Err(e)` connection-error case), then perform the unconditional 100 ms
sleep at `lib.rs:140`. The error branch sleeps 10 s first
(`lib.rs:137`). -/
def handleEvent (topic_main : String) (pubErr : Publish → Option String)
    (n : Except String Event) : LoopEffects :=
  match n with
  | Except.ok (Event.Incoming (Packet.ConnAck code sp)) =>
      { publishes := [connectedPublish topic_main]
        logs := ("MQTT connection status: " ++ code ++ ", session present: " ++ toString sp) ::
          pubLog "mqtt_publish_connected_error=" (pubErr (connectedPublish topic_main))
        sleeps := [100] }
  | Except.ok (Event.Incoming Packet.PubAck) =>
      { publishes := [], logs := [], sleeps := [100] }
  | Except.ok (Event.Incoming Packet.PingResp) =>
      { publishes := [], logs := [], sleeps := [100] }
  | Except.ok (Event.Incoming (Packet.other d)) =>
      { publishes := [], logs := ["recv=" ++ d], sleeps := [100] }
  | Except.ok (Event.Outgoing Outgoing.Publish) =>
      { publishes := [], logs := [], sleeps := [100] }
  | Except.ok (Event.Outgoing Outgoing.PingReq) =>
      { publishes := [], logs := [], sleeps := [100] }
  | Except.ok (Event.Outgoing (Outgoing.other d)) =>
      { publishes := [], logs := ["send=" ++ d], sleeps := [100] }
  | Except.error e =>
      { publishes := [], logs := ["mqtt connection error=" ++ e], sleeps := [10000, 100] }

/-- Run the event loop over a finite prefix of the notification
stream. -/
def runEventLoop (topic_main : String) (pubErr : Publish → Option String) :
    List (Except String Event) → LoopEffects
  | [] => { publishes := [], logs := [], sleeps := [] }
  | n :: rest =>
      let r := handleEvent topic_main pubErr n
      let t := runEventLoop topic_main pubErr rest
      { publishes := r.publishes ++ t.publishes
        logs := r.logs ++ t.logs
        sleeps := r.sleeps ++ t.sleeps }

/-- Whether a notification is a connection acknowledgment. -/
def isConnAck : Except String Event → Bool
  | Except.ok (Event.Incoming (Packet.ConnAck _ _)) => true
  | _ => false

/-- Number of connection acknowledgments in a notification stream. -/
def connAckCount (ns : List (Except String Event)) : Nat :=
  (ns.filter isConnAck).length

/-- Concrete configuration used to instantiate the theorems: the
defaults `-A 30 -I 300 -r modo` with hostname `MyHost`. -/
def cfg0 : Config :=
  { threshold_active := 30, threshold_idle := 300, topic := "modo/myhost" }

/-- Publish-result oracle where every publish attempt succeeds. -/
def noPubErr : Publish → Option String :=
  fun _ => none

/-- An arbitrary concrete instant. -/
def now0 : DateTime :=
  { secs := 1700000000, nanos := 123456789 }

/-- The publish attempts of a successful tick: always `idle_seconds`
then `idle_status`, plus `last_active_timestamp` exactly when the gate
`idle_sec > previous_published_idle_sec` does not fire. -/
theorem tick_publishes_eq (cfg : Config) (pubErr : Publish → Option String)
    (now : DateTime) (prev idle_sec : Nat) :
    (tick cfg pubErr now prev (Except.ok idle_sec)).publishes =
      if prev < idle_sec then
        [p_idle_seconds cfg idle_sec, p_idle_status cfg idle_sec]
      else
        [p_idle_seconds cfg idle_sec, p_idle_status cfg idle_sec,
          p_last_active cfg now idle_sec] := by
  by_cases h : prev < idle_sec <;> simp [tick, gt_iff_lt, h]

/-- `previous_published_idle_sec` after a successful tick: unchanged
when the gate fires, otherwise the sampled value. -/
theorem tick_prev_eq (cfg : Config) (pubErr : Publish → Option String)
    (now : DateTime) (prev idle_sec : Nat) :
    (tick cfg pubErr now prev (Except.ok idle_sec)).prev =
      if prev < idle_sec then prev else idle_sec := by
  by_cases h : prev < idle_sec <;> simp [tick, gt_iff_lt, h]

/-- A successful tick publishes `last_active_timestamp` exactly when
the sampled idle seconds did not exceed the previously published
value. -/
theorem tick_publishesTimestamp_iff (cfg : Config) (pubErr : Publish → Option String)
    (now : DateTime) (prev idle_sec : Nat) :
    publishesTimestamp (tick cfg pubErr now prev (Except.ok idle_sec)) = true ↔
      idle_sec ≤ prev := by
  rw [publishesTimestamp, tick_publishes_eq]
  by_cases h : prev < idle_sec
  · simp [h, isTimestampPublish, p_idle_seconds, p_idle_status]
  · simp [h, isTimestampPublish, p_idle_seconds, p_idle_status, p_last_active]
    omega

/-- Claim C1, counterexample: the claim quantifies over all threshold
pairs, but with misordered thresholds (activeBoundary 10, idleBoundary
5) and idleSeconds 7 the code returns "active" while the claim's third
clause (idleSeconds ≥ idleBoundary → Away) demands "away". -/
theorem idle_status_misordered_thresholds :
    ¬ (5 ≤ 7 → idle_status 7 10 5 = "away") :=
  fun h => absurd (h (by decide)) (by decide)

/-- Claim C1, amended with the ordering activeBoundary ≤ idleBoundary
(expected but not enforced by the code): below activeBoundary the
classifier yields "active", from activeBoundary up to but excluding
idleBoundary "idle", and from idleBoundary on "away"; in particular a
tie at activeBoundary yields "idle" (when the thresholds are strictly
ordered) and a tie at idleBoundary yields "away". -/
theorem idle_status_classifies (tA tI idle_sec : Nat) (h : tA ≤ tI) :
    (idle_sec < tA → idle_status idle_sec tA tI = "active") ∧
    (tA ≤ idle_sec → idle_sec < tI → idle_status idle_sec tA tI = "idle") ∧
    (tI ≤ idle_sec → idle_status idle_sec tA tI = "away") ∧
    (tA < tI → idle_status tA tA tI = "idle") ∧
    idle_status tI tA tI = "away" := by
  unfold idle_status
  refine ⟨?_, ?_, ?_, ?_, ?_⟩ <;> intros <;> (repeat' split) <;> first | rfl | omega

/-- Claim C1, witness: at the default thresholds (30, 300), idleSeconds
29 is "active", 30 is "idle", and 300 is "away". -/
theorem idle_status_classifies_witness :
    idle_status 29 30 300 = "active" ∧
    idle_status 30 30 300 = "idle" ∧
    idle_status 300 30 300 = "away" :=
  ⟨(idle_status_classifies 30 300 29 (by decide)).1 (by decide),
   (idle_status_classifies 30 300 30 (by decide)).2.1 (by decide) (by decide),
   (idle_status_classifies 30 300 300 (by decide)).2.2.1 (by decide)⟩

/-- Claim C2: on a tick with a successful sample, last_active_timestamp
is published exactly when idleSeconds ≤ previousPublishedIdleSeconds,
and whenever it is published, previousPublishedIdleSeconds becomes the
current idleSeconds — for every publish-result oracle, i.e. regardless
of whether any publish attempt succeeded or failed. -/
theorem gate_iff_and_update (cfg : Config) (pubErr : Publish → Option String)
    (now : DateTime) (prev idle_sec : Nat) :
    (publishesTimestamp (tick cfg pubErr now prev (Except.ok idle_sec)) = true ↔
      idle_sec ≤ prev) ∧
    (idle_sec ≤ prev →
      (tick cfg pubErr now prev (Except.ok idle_sec)).prev = idle_sec) := by
  refine ⟨tick_publishesTimestamp_iff cfg pubErr now prev idle_sec, ?_⟩
  intro hle
  rw [tick_prev_eq]
  simp [Nat.not_lt.mpr hle]

/-- Claim C2, witness: with previousPublished 5 and sample 3 the
timestamp is published and previousPublished becomes 3. -/
theorem gate_iff_and_update_witness :
    publishesTimestamp (tick cfg0 noPubErr now0 5 (Except.ok 3)) = true ∧
    (tick cfg0 noPubErr now0 5 (Except.ok 3)).prev = 3 :=
  ⟨(gate_iff_and_update cfg0 noPubErr now0 5 3).1.mpr (by decide),
   (gate_iff_and_update cfg0 noPubErr now0 5 3).2 (by decide)⟩

/-- Claim C3, counterexample: the sentinel is u64::MAX − 1 = 2^64 − 2,
which is not larger than every possible u64 sample: a first sample of
exactly u64::MAX = 2^64 − 1 exceeds it, so the first tick does not
publish last_active_timestamp. -/
theorem first_sample_u64_max_suppressed :
    publishesTimestamp (tick cfg0 noPubErr now0 previous_published_idle_sec_init
      (Except.ok (2 ^ 64 - 1))) = false := by
  decide

/-- Claim C3, amended: previousPublishedIdleSeconds starts at the
sentinel u64::MAX − 1 = 2^64 − 2, so every first successful sample
except u64::MAX itself (i.e. every idleSeconds ≤ 2^64 − 2) publishes
last_active_timestamp on the first tick. -/
theorem first_sample_publishes (cfg : Config) (pubErr : Publish → Option String)
    (now : DateTime) (idle_sec : Nat) (h : idle_sec ≤ 2 ^ 64 - 2) :
    publishesTimestamp (tick cfg pubErr now previous_published_idle_sec_init
      (Except.ok idle_sec)) = true := by
  rw [tick_publishesTimestamp_iff]
  simpa [previous_published_idle_sec_init] using h

/-- Claim C3, witness: a first sample of 0 publishes the timestamp. -/
theorem first_sample_publishes_witness :
    publishesTimestamp (tick cfg0 noPubErr now0 previous_published_idle_sec_init
      (Except.ok 0)) = true :=
  first_sample_publishes cfg0 noPubErr now0 0 (by decide)

/-- Claim C4: on every tick with a successful sample, the idle_seconds
and idle_status publishes are both issued, retained and at-least-once,
for every gate state `prev` and every publish-result oracle. -/
theorem idle_topics_always_published (cfg : Config) (pubErr : Publish → Option String)
    (now : DateTime) (prev idle_sec : Nat) :
    p_idle_seconds cfg idle_sec ∈
      (tick cfg pubErr now prev (Except.ok idle_sec)).publishes ∧
    p_idle_status cfg idle_sec ∈
      (tick cfg pubErr now prev (Except.ok idle_sec)).publishes ∧
    (p_idle_seconds cfg idle_sec).retain = true ∧
    (p_idle_seconds cfg idle_sec).qos = QoS.AtLeastOnce ∧
    (p_idle_status cfg idle_sec).retain = true ∧
    (p_idle_status cfg idle_sec).qos = QoS.AtLeastOnce := by
  rw [tick_publishes_eq]
  by_cases h : prev < idle_sec <;> simp [h, p_idle_seconds, p_idle_status]

/-- Claim C5: a tick whose idle sample fails logs the error, publishes
nothing, leaves previousPublishedIdleSeconds unchanged for the rest of
the run, still observes the normal 1-second cadence, and the loop goes
on to process the remaining ticks. -/
theorem sample_failure_skips_tick (cfg : Config) (pubErr : Publish → Option String)
    (now : DateTime) (e : String) (rest : List (DateTime × Except String Nat))
    (prev : Nat) :
    runTicks cfg pubErr ((now, Except.error e) :: rest) prev =
      { publishes := (runTicks cfg pubErr rest prev).publishes
        logs := ("error=" ++ e) :: (runTicks cfg pubErr rest prev).logs
        sleeps := 1000 :: (runTicks cfg pubErr rest prev).sleeps
        prev := (runTicks cfg pubErr rest prev).prev } := by
  simp [runTicks, tick]

/-- Claim C6: the last-active timestamp is the current instant rounded
down to whole seconds minus idleSeconds, and it depends only on the
second-truncated instant: two instants with the same truncation give an
identical timestamp for the same idleSeconds. -/
theorem last_active_ts_deterministic :
    (∀ (now : DateTime) (idle_sec : Nat),
      lastActiveTs now idle_sec = { secs := now.secs - (idle_sec : Int), nanos := 0 }) ∧
    (∀ (now now' : DateTime) (idle_sec : Nat),
      now.trunc_subsecs = now'.trunc_subsecs →
        lastActiveTs now idle_sec = lastActiveTs now' idle_sec) := by
  constructor
  · intro now idle_sec
    rfl
  · intro now now' idle_sec h
    unfold lastActiveTs
    rw [h]

/-- Claim C6, witness: at second 100 with 30 idle seconds the timestamp
is second 70, and two instants differing only in nanoseconds yield the
same timestamp. -/
theorem last_active_ts_deterministic_witness :
    lastActiveTs { secs := 100, nanos := 5 } 30 =
      { secs := (100 : Int) - ((30 : Nat) : Int), nanos := 0 } ∧
    lastActiveTs { secs := 100, nanos := 5 } 30 =
      lastActiveTs { secs := 100, nanos := 999 } 30 :=
  ⟨last_active_ts_deterministic.1 { secs := 100, nanos := 5 } 30,
   last_active_ts_deterministic.2 { secs := 100, nanos := 5 } { secs := 100, nanos := 999 }
     30 rfl⟩

/-- Claim C7: over any notification stream, the event loop's publish
attempts are exactly one retained `connected=true` publish per
connection acknowledgment received — no duplicates, none missing, and
no other event kind contributes a publish. -/
theorem connack_publishes_connected (topic_main : String)
    (pubErr : Publish → Option String) (ns : List (Except String Event)) :
    (runEventLoop topic_main pubErr ns).publishes =
      List.replicate (connAckCount ns) (connectedPublish topic_main) := by
  induction ns with
  | nil => rfl
  | cons n rest ih =>
    cases n with
    | error e =>
        simp [runEventLoop, handleEvent, connAckCount, isConnAck, List.filter_cons, ih]
    | ok ev =>
        cases ev with
        | Incoming p =>
            cases p <;>
              simp [runEventLoop, handleEvent, connAckCount, isConnAck, List.filter_cons,
                List.replicate_succ, ih]
        | Outgoing o =>
            cases o <;>
              simp [runEventLoop, handleEvent, connAckCount, isConnAck, List.filter_cons, ih]

/-- Claim C8: a connection-error notification is logged, followed by
the 10-second back-off sleep and the usual 100 ms end-of-iteration
sleep, and the loop then processes the remaining notifications — it
neither exits nor drops them. -/
theorem conn_error_backoff_continues (topic_main : String)
    (pubErr : Publish → Option String) (e : String)
    (rest : List (Except String Event)) :
    runEventLoop topic_main pubErr (Except.error e :: rest) =
      { publishes := (runEventLoop topic_main pubErr rest).publishes
        logs := ("mqtt connection error=" ++ e) :: (runEventLoop topic_main pubErr rest).logs
        sleeps := 10000 :: 100 :: (runEventLoop topic_main pubErr rest).sleeps } := by
  simp [runEventLoop, handleEvent]

/-- Claim C9: the base topic is the configured root topic, "/", then
the ascii-lowercased hostname (e.g. root "modo" with hostname "MyHost"
gives "modo/myhost"); every sampling-loop publish goes to base topic
plus one of the leaves idle_seconds / idle_status /
last_active_timestamp, every event-loop publish goes to base topic plus
"connected", and the last-will topic is base topic plus "connected" as
well. -/
theorem topic_composition :
    baseTopic "modo" "MyHost" = "modo/myhost" ∧
    (∀ root hostname, baseTopic root hostname = root ++ "/" ++ to_ascii_lowercase hostname) ∧
    (∀ (cfg : Config) (pubErr : Publish → Option String) (now : DateTime)
      (prev : Nat) (sample : Except String Nat) (p : Publish),
      p ∈ (tick cfg pubErr now prev sample).publishes →
        p.topic = leafTopic cfg.topic "idle_seconds" ∨
        p.topic = leafTopic cfg.topic "idle_status" ∨
        p.topic = leafTopic cfg.topic "last_active_timestamp") ∧
    (∀ (topic_main : String) (pubErr : Publish → Option String)
      (n : Except String Event) (p : Publish),
      p ∈ (handleEvent topic_main pubErr n).publishes →
        p.topic = leafTopic topic_main "connected") ∧
    (∀ root hostname,
      (lastWill root hostname).topic = leafTopic (baseTopic root hostname) "connected") := by
  refine ⟨by decide, fun root hostname => rfl, ?_, ?_, ?_⟩
  · intro cfg pubErr now prev sample p hp
    cases sample with
    | error e =>
        simp [tick] at hp
    | ok idle_sec =>
        rw [tick_publishes_eq] at hp
        by_cases h : prev < idle_sec
        · simp [h] at hp
          rcases hp with hp | hp <;> subst hp <;> simp [p_idle_seconds, p_idle_status]
        · simp [h] at hp
          rcases hp with hp | hp | hp <;> subst hp <;>
            simp [p_idle_seconds, p_idle_status, p_last_active]
  · intro topic_main pubErr n p hp
    cases n with
    | error e => simp [handleEvent] at hp
    | ok ev =>
        cases ev with
        | Incoming pk =>
            cases pk with
            | ConnAck code sp =>
                simp [handleEvent] at hp
                subst hp
                rfl
            | PubAck => simp [handleEvent] at hp
            | PingResp => simp [handleEvent] at hp
            | other d => simp [handleEvent] at hp
        | Outgoing o =>
            cases o <;> simp [handleEvent] at hp
  · intro root hostname
    show root ++ "/" ++ to_ascii_lowercase hostname ++ "/connected" =
      baseTopic root hostname ++ "/" ++ "connected"
    have h : ("/" ++ "connected" : String) = "/connected" := by decide
    simp [baseTopic, String.append_assoc, h]

/-- Claim C9, witness: the idle_seconds publish of a concrete tick has
topic base/idle_seconds. -/
theorem topic_composition_witness :
    (p_idle_seconds cfg0 3).topic = leafTopic cfg0.topic "idle_seconds" ∨
    (p_idle_seconds cfg0 3).topic = leafTopic cfg0.topic "idle_status" ∨
    (p_idle_seconds cfg0 3).topic = leafTopic cfg0.topic "last_active_timestamp" :=
  topic_composition.2.2.1 cfg0 noPubErr now0 5 (Except.ok 3) (p_idle_seconds cfg0 3)
    (by rw [tick_publishes_eq]; simp)

/-- Claim C10: previousPublishedIdleSeconds starts at the sentinel
u64::MAX − 1 and never increases: every tick (successful, suppressed or
failed) leaves it less than or equal to its current value, and hence
any finite run of the sampling loop ends with a value no larger than it
started with. -/
theorem prev_published_never_increases :
    previous_published_idle_sec_init = 2 ^ 64 - 2 ∧
    (∀ (cfg : Config) (pubErr : Publish → Option String) (now : DateTime)
      (prev : Nat) (sample : Except String Nat),
      (tick cfg pubErr now prev sample).prev ≤ prev) ∧
    (∀ (cfg : Config) (pubErr : Publish → Option String)
      (inputs : List (DateTime × Except String Nat)) (prev : Nat),
      (runTicks cfg pubErr inputs prev).prev ≤ prev) := by
  have hstep : ∀ (cfg : Config) (pubErr : Publish → Option String) (now : DateTime)
      (prev : Nat) (sample : Except String Nat),
      (tick cfg pubErr now prev sample).prev ≤ prev := by
    intro cfg pubErr now prev sample
    cases sample with
    | error e => simp [tick]
    | ok idle_sec =>
        rw [tick_prev_eq]
        split <;> omega
  refine ⟨rfl, hstep, ?_⟩
  intro cfg pubErr inputs
  induction inputs with
  | nil => intro prev; simp [runTicks]
  | cons x rest ih =>
      intro prev
      obtain ⟨now, s⟩ := x
      calc (runTicks cfg pubErr ((now, s) :: rest) prev).prev
          = (runTicks cfg pubErr rest (tick cfg pubErr now prev s).prev).prev := rfl
        _ ≤ (tick cfg pubErr now prev s).prev := ih _
        _ ≤ prev := hstep cfg pubErr now prev s

end Modo
